import Mathlib

/-!
Verification development for the build/publish/resolve core of the
terraform-provider-ko repository.

The Go source is shallowly embedded: pure functions become Lean functions,
stateful code (the process-wide base-image cache, the publish retry loop,
the resource read/delete handlers) becomes explicit state passing, machine
integers become Nat/Int with explicit reductions where overflow matters, and
fallible code returns Option/Except.  External collaborators (the registry
client, the ko build engine, the YAML serialization library, the SHA-256
primitive of the Go standard library) are either modelled from the spec at
the interface boundary or passed in as oracle parameters; each such
definition says so in its doc comment.
-/

namespace KoProvider

/-! ## SHA-256

Model of the crypto/sha256 collaborator of the Go standard library
(FIPS 180-4), used by the resolve resource to compute manifest identities.
Words are Nat reduced modulo 2^32. -/

/-- Modulus of 32-bit words. -/
def M32 : Nat := 2 ^ 32

/-- Right rotation of a 32-bit word. -/
def rotr32 (n x : Nat) : Nat :=
  ((x >>> n) ||| (x <<< (32 - n))) % M32

/-- Logical right shift of a 32-bit word. -/
def shr32 (n x : Nat) : Nat := x >>> n

/-- Big sigma-0 of FIPS 180-4. -/
def bsig0 (x : Nat) : Nat := (rotr32 2 x) ^^^ (rotr32 13 x) ^^^ (rotr32 22 x)

/-- Big sigma-1 of FIPS 180-4. -/
def bsig1 (x : Nat) : Nat := (rotr32 6 x) ^^^ (rotr32 11 x) ^^^ (rotr32 25 x)

/-- Small sigma-0 of FIPS 180-4. -/
def ssig0 (x : Nat) : Nat := (rotr32 7 x) ^^^ (rotr32 18 x) ^^^ (shr32 3 x)

/-- Small sigma-1 of FIPS 180-4. -/
def ssig1 (x : Nat) : Nat := (rotr32 17 x) ^^^ (rotr32 19 x) ^^^ (shr32 10 x)

/-- Choice function of the SHA-256 round. -/
def ch (x y z : Nat) : Nat := (x &&& y) ^^^ ((x ^^^ (M32 - 1)) &&& z)

/-- Majority function of the SHA-256 round. -/
def maj (x y z : Nat) : Nat := (x &&& y) ^^^ (x &&& z) ^^^ (y &&& z)

/-- Round constants of SHA-256. -/
def Ksha : List Nat :=
  [1116352408, 1899447441, 3049323471, 3921009573, 961987163, 1508970993,
   2453635748, 2870763221, 3624381080, 310598401, 607225278, 1426881987,
   1925078388, 2162078206, 2614888103, 3248222580, 3835390401, 4022224774,
   264347078, 604807628, 770255983, 1249150122, 1555081692, 1996064986,
   2554220882, 2821834349, 2952996808, 3210313671, 3336571891, 3584528711,
   113926993, 338241895, 666307205, 773529912, 1294757372, 1396182291,
   1695183700, 1986661051, 2177026350, 2456956037, 2730485921, 2820302411,
   3259730800, 3345764771, 3516065817, 3600352804, 4094571909, 275423344,
   430227734, 506948616, 659060556, 883997877, 958139571, 1322822218,
   1537002063, 1747873779, 1955562222, 2024104815, 2227730452, 2361852424,
   2428436474, 2756734187, 3204031479, 3329325298]

/-- Initial hash state of SHA-256. -/
def initialHash : List Nat :=
  [1779033703, 3144134277, 1013904242, 2773480762, 1359893119, 2600822924, 528734635, 1541459225]

/-- Merkle-Damgard padding of a byte message, per SHA-256. -/
def shaPad (msg : List Nat) : List Nat :=
  let L := msg.length
  let zeros := (55 + 64 - (L % 64)) % 64
  let lenBits := 8 * L
  msg ++ [0x80] ++ List.replicate zeros 0 ++
    (List.range 8).map (fun i => (lenBits >>> (8 * (7 - i))) % 256)

/-- Group bytes (length a multiple of 4) into big-endian 32-bit words. -/
def toWords : List Nat → List Nat
  | a :: b :: c :: d :: rest => (a * 0x1000000 + b * 0x10000 + c * 0x100 + d) :: toWords rest
  | _ => []

/-- Extend the 16 block words by i further words of the message schedule. -/
def schedule (w : List Nat) : Nat → List Nat
  | 0 => w
  | n + 1 =>
    let prev := schedule w n
    let t := 16 + n
    prev ++ [(ssig1 (prev.getD (t - 2) 0) + prev.getD (t - 7) 0 +
              ssig0 (prev.getD (t - 15) 0) + prev.getD (t - 16) 0) % M32]

/-- Working registers of the SHA-256 compression loop. -/
structure Regs where
  a : Nat
  b : Nat
  c : Nat
  d : Nat
  e : Nat
  f : Nat
  g : Nat
  h : Nat

/-- One round of the SHA-256 compression function. -/
def shaRound (r : Regs) (k w : Nat) : Regs :=
  let t1 := (r.h + bsig1 r.e + ch r.e r.f r.g + k + w) % M32
  let t2 := (bsig0 r.a + maj r.a r.b r.c) % M32
  { a := (t1 + t2) % M32, b := r.a, c := r.b, d := r.c,
    e := (r.d + t1) % M32, f := r.e, g := r.f, h := r.g }

/-- Compress one 16-word block into the running hash state. -/
def compressBlock (h : List Nat) (block : List Nat) : List Nat :=
  let w := schedule block 48
  let r0 : Regs := { a := h.getD 0 0, b := h.getD 1 0, c := h.getD 2 0, d := h.getD 3 0,
                     e := h.getD 4 0, f := h.getD 5 0, g := h.getD 6 0, h := h.getD 7 0 }
  let rf := (List.zip Ksha w).foldl (fun r kw => shaRound r kw.1 kw.2) r0
  [(h.getD 0 0 + rf.a) % M32, (h.getD 1 0 + rf.b) % M32, (h.getD 2 0 + rf.c) % M32,
   (h.getD 3 0 + rf.d) % M32, (h.getD 4 0 + rf.e) % M32, (h.getD 5 0 + rf.f) % M32,
   (h.getD 6 0 + rf.g) % M32, (h.getD 7 0 + rf.h) % M32]

/-- Split a word list into 16-word blocks (structurally, so the kernel can
evaluate it). -/
def blocks16 : List Nat → List (List Nat)
  | w0 :: w1 :: w2 :: w3 :: w4 :: w5 :: w6 :: w7 ::
    w8 :: w9 :: w10 :: w11 :: w12 :: w13 :: w14 :: w15 :: rest =>
      [w0, w1, w2, w3, w4, w5, w6, w7, w8, w9, w10, w11, w12, w13, w14, w15] :: blocks16 rest
  | _ => []

/-- SHA-256 digest of a byte message, as eight 32-bit words. -/
def sha256Words (msg : List Nat) : List Nat :=
  (blocks16 (toWords (shaPad msg))).foldl compressBlock initialHash

/-- Lowercase hex digit. -/
def hexDigit (n : Nat) : Char :=
  if n < 10 then Char.ofNat (48 + n) else Char.ofNat (87 + n)

/-- Render one 32-bit word as 8 lowercase hex characters. -/
def word2hex (w : Nat) : List Char :=
  (List.range 8).map (fun i => hexDigit ((w >>> (4 * (7 - i))) % 16))

/-- Lowercase hex SHA-256 digest of a byte message; this is
fmt.Sprintf applied with the x verb to sha256.Sum256 in the source. -/
def sha256hex (msg : List Nat) : String :=
  ⟨(sha256Words msg).flatMap word2hex⟩

/-- Bytes of a string (the manifests in play are ASCII, so code points are
bytes). -/
def strBytes (s : String) : List Nat := s.data.map Char.toNat

/-! ## String helpers translated from the Go standard library -/

/-- Translated from strings.Join: concatenate with a separator. -/
def joinSep (sep : String) : List String → String
  | [] => ""
  | [m] => m
  | m :: rest => m ++ sep ++ joinSep sep rest

/-- Translated from strings.HasSuffix: s ends with suf. -/
def strHasSuffix (s suf : String) : Bool :=
  decide (suf.data.length ≤ s.data.length) &&
    decide (s.data.drop (s.data.length - suf.data.length) = suf.data)

/-- Whether pat is a prefix of a character list. -/
def charsPrefix : List Char → List Char → Bool
  | [], _ => true
  | _ :: _, [] => false
  | p :: ps, c :: cs => p == c && charsPrefix ps cs

/-- Whether pat occurs inside a character list. -/
def charsContain (pat : List Char) : List Char → Bool
  | [] => charsPrefix pat []
  | c :: cs => charsPrefix pat (c :: cs) || charsContain pat cs

/-- Translated from strings.Contains: pat occurs inside s. -/
def strContains (s pat : String) : Bool := charsContain pat.data s.data

/-! ## YAML collaborator

Modelled from the spec: manifest-document parsing uses a standard
data-serialization library, out of scope and specified only at the interface
boundary — a multi-document stream splits at document separators, a document
whose content is empty or the null scalar decodes to nil, and any other
document decodes to a generic value that re-serializes in a canonical form
(here: flat scalar mappings rendered one entry per line).  This tiny subset
is enough to drive the resolve identity algorithm of the source. -/

/-- Generic decoded YAML document: nil, or a flat mapping of scalars. -/
inductive YamlDoc
  | nullDoc
  | mapping (entries : List (String × String))
deriving DecidableEq

/-- Split characters at newlines. -/
def splitLines (cs : List Char) : List (List Char) :=
  cs.foldr
    (fun c acc =>
      if c = '\n' then [] :: acc
      else
        match acc with
        | [] => [[c]]
        | l :: ls => (c :: l) :: ls)
    [[]]

/-- Group lines of a stream into documents at lines that are exactly the
document separator. -/
def groupDocs (lines : List (List Char)) : List (List (List Char)) :=
  lines.foldr
    (fun l acc =>
      if l = ['-', '-', '-'] then [] :: acc
      else
        match acc with
        | [] => [[l]]
        | d :: ds => (l :: d) :: ds)
    [[]]

/-- Strip leading and trailing spaces. -/
def trimSpaces (l : List Char) : List Char :=
  ((l.dropWhile (fun c => c = ' ')).reverse.dropWhile (fun c => c = ' ')).reverse

/-- Parse one mapping line: key up to the first colon, value after it with
surrounding spaces dropped. -/
def parseLine (l : List Char) : String × String :=
  let k := l.takeWhile (fun c => c ≠ ':')
  let v := (l.dropWhile (fun c => c ≠ ':')).drop 1
  (⟨k⟩, ⟨trimSpaces v⟩)

/-- Decode one document from its lines: blank or null content decodes to
nil, anything else to a generic mapping value. -/
def parseYamlDoc (lines : List (List Char)) : YamlDoc :=
  let content := lines.filter (fun l => trimSpaces l ≠ [])
  if content = [] ∨ content.map trimSpaces = [['n', 'u', 'l', 'l']] then .nullDoc
  else .mapping (content.map parseLine)

/-- Canonical re-serialization of a decoded document. -/
def encodeYamlDoc : YamlDoc → String
  | .nullDoc => "null\n"
  | .mapping kvs => joinSep "" (kvs.map (fun kv => kv.1 ++ ": " ++ kv.2 ++ "\n"))

/-- Decode every document of a multi-document stream, in order. -/
def decodeStream (s : String) : List YamlDoc :=
  (groupDocs (splitLines s.data)).map parseYamlDoc

/-! ## Resolve identity (resource_ko_resolve.go)

Both generations of the resolve resource post-process the raw stream written
by the ko resolver: the stream is decoded document by document into a
generic value, nil documents are dropped, and each surviving document is
independently re-serialized.  They differ in how the stored identity is
computed. -/

/-- Translated from the decode/filter/re-encode loop shared by
NewResolved (SDK-v2 generation) and Resolver.Resolve (framework
generation): split the dump of multi-doc yaml back into individual nodes,
stripping whitespace and nil docs. -/
def resolveManifests (raw : String) : List String :=
  (decodeStream raw).filterMap
    (fun d =>
      match d with
      | .nullDoc => none
      | .mapping kvs => some (encodeYamlDoc (.mapping kvs)))

/-- Resolved result of the framework generation: stored identity and the
normalized manifest list. -/
structure Resolved where
  ID : String
  Manifests : List String
deriving DecidableEq

/-- State of a bytes.Buffer as its reader sees it: the Bytes method
returns only the unread portion. -/
structure BytesBuffer where
  unread : String

/-- The yaml decode loop of Resolver.Resolve reads resolveBuf through the
decoder until Decode returns EOF, which consumes the buffer to
end-of-stream: the loop yields the decoded documents and leaves the
unread portion of the buffer empty. -/
def decodeDrain (b : BytesBuffer) : List YamlDoc × BytesBuffer :=
  (decodeStream b.unread, { unread := "" })

/-- Translated from the tail of Resolver.Resolve (framework generation,
resource_ko_resolve.go): the decode loop drains resolveBuf while
collecting the documents, the surviving documents are re-serialized into
Manifests, and only then is sha256.Sum256 applied to resolveBuf.Bytes() —
the unread remainder the decoder left behind, which after a successful
decode loop is empty — and rendered with the x verb into ID. -/
def resolverResolve (resolveBuf : String) : Resolved :=
  let drained := decodeDrain { unread := resolveBuf }
  { ID := sha256hex (strBytes drained.2.unread)
  , Manifests :=
      drained.1.filterMap
        (fun d =>
          match d with
          | .nullDoc => none
          | .mapping kvs => some (encodeYamlDoc (.mapping kvs))) }

/-- Translated from Resolved.ID of the superseded SDK-v2 generation: the
hex SHA-256 of the parsed manifests joined by the fixed separator. -/
def legacyResolvedID (manifests : List String) : String :=
  sha256hex (strBytes (joinSep "\n---\n" manifests))

/-! ## Publish retry (doPublish and isManifestInvalidError, part_003)

The registry transport error of go-containerregistry is structured: a
transport.Error carries a list of registry error details, each with a code.
The publish step itself is the external registry-client collaborator and is
passed in as an oracle from attempt number to outcome. -/

/-- Nested registry error detail (go-containerregistry transport.Error
entries), carrying the registry error code. -/
structure RegistryDiag where
  Code : String
deriving DecidableEq

/-- Structured registry transport error (go-containerregistry
transport.Error). -/
structure TransportError where
  Errors : List RegistryDiag
deriving DecidableEq

/-- Errors surfaced by the publish step: either a structured registry
transport error somewhere in the chain (observed by errors.As), or any
other error. -/
inductive PublishError
  | transport (terr : TransportError)
  | plain (msg : String)
deriving DecidableEq

/-- Registry error code for a manifest rejected as invalid
(transport.ManifestInvalidErrorCode). -/
def manifestInvalidErrorCode : String := "MANIFEST_INVALID"

/-- Translated from isManifestInvalidError: err is a MANIFEST_INVALID
registry error when a transport.Error in its chain carries that nested
code. -/
def isManifestInvalidError : PublishError → Bool
  | .transport terr => terr.Errors.any (fun e => e.Code == manifestInvalidErrorCode)
  | .plain _ => false

/-- Translated from the maxAttempts constant of doPublish. -/
def maxAttempts : Nat := 3

/-- Translated from the retryDelay constant of doPublish (one second),
counted in seconds. -/
def retryDelaySeconds : Nat := 1

/-- Observable outcome of one doPublish call: the result, how many times
the publish step ran, and how many seconds were slept between attempts. -/
structure PublishRun where
  result : Except PublishError String
  publishCalls : Nat
  sleepSeconds : Nat

/-- Translated from the retry loop of doPublish: call the publish step; on
success stop; on an error that is not MANIFEST_INVALID, or once the attempt
bound is reached, surface the error; otherwise sleep for the fixed delay
and retry.  The fuel argument only bounds the recursion; the loop itself
exits no later than attempt maxAttempts. -/
def doPublishLoop (pub : Nat → Except PublishError String) :
    Nat → Nat → Nat → PublishRun
  | 0, attempt, slept =>
    match pub attempt with
    | .ok ref => { result := .ok ref, publishCalls := attempt, sleepSeconds := slept }
    | .error err => { result := .error err, publishCalls := attempt, sleepSeconds := slept }
  | fuel + 1, attempt, slept =>
    match pub attempt with
    | .ok ref => { result := .ok ref, publishCalls := attempt, sleepSeconds := slept }
    | .error err =>
      if isManifestInvalidError err = false ∨ maxAttempts ≤ attempt then
        { result := .error err, publishCalls := attempt, sleepSeconds := slept }
      else
        doPublishLoop pub fuel (attempt + 1) (slept + retryDelaySeconds)

/-- Translated from doPublish: the retry loop starts at attempt 1 with no
sleep taken. -/
def doPublishRetry (pub : Nat → Except PublishError String) : PublishRun :=
  doPublishLoop pub maxAttempts 1 0

/-! ## Effective repository and the build precondition
(BuildResourceModel.update and doBuild, resource_ko_build.go) -/

/-- Translated from BuildResourceModel.update: the resource-level repo
attribute (none when the terraform value is null) takes precedence and
makes naming bare; otherwise a non-empty provider-level repo; otherwise the
KO_DOCKER_REPO environment variable as last resort.  Returns the effective
repo together with the bare flag. -/
def updateRepo (resourceRepo : Option String) (providerRepo envRepo : String) :
    String × Bool :=
  match resourceRepo with
  | some r => (r, true)
  | none => if providerRepo ≠ "" then (providerRepo, false) else (envRepo, false)

/-- Translated from the error literal of doBuild guarding the empty
effective repo. -/
def repoUnsetError : String :=
  "one of KO_DOCKER_REPO env var, or provider `repo`, or ko_build resource `repo` must be set"

/-- Outcome of one build-resource operation, separating the phases the
source separates by diagnostic summary: the Client Error precheck, builder
construction, the build step, the publish step. -/
inductive BuildOutcome
  | clientError (msg : String)
  | builderError (msg : String)
  | buildError (msg : String)
  | publishError (msg : String)
  | published (ref : String)
deriving DecidableEq

/-- Trace of one build-resource operation: its outcome plus how many times
the external build and publish collaborators ran. -/
structure BuildTrace where
  outcome : BuildOutcome
  buildCalls : Nat
  publishCalls : Nat
deriving DecidableEq

/-- Translated from doBuild (framework generation): fail on an empty
effective repo before any other work; then construct the builder, build,
and publish, surfacing the first error.  The three collaborator stages are
oracle parameters. -/
def doBuildFw (repo importpath : String)
    (mkBuilder : Except String Unit)
    (buildStep : String → Except String String)
    (publishStep : String → Except String String) : BuildTrace :=
  if repo = "" then
    { outcome := .clientError repoUnsetError, buildCalls := 0, publishCalls := 0 }
  else
    match mkBuilder with
    | .error e => { outcome := .builderError e, buildCalls := 0, publishCalls := 0 }
    | .ok _ =>
      match buildStep importpath with
      | .error e => { outcome := .buildError e, buildCalls := 1, publishCalls := 0 }
      | .ok res =>
        match publishStep res with
        | .error e => { outcome := .publishError e, buildCalls := 1, publishCalls := 1 }
        | .ok ref => { outcome := .published ref, buildCalls := 1, publishCalls := 1 }

/-- Translated from the provider configure function and fromData of the
SDK-v2 generation: the provider repo attribute falls back to the
KO_DOCKER_REPO environment variable only when it is not configured
(EnvDefaultFunc), and a non-empty resource-level repo overrides it and
makes naming bare. -/
def fromDataRepo (resourceRepo : String) (providerRepoAttr : Option String)
    (envRepo : String) : String × Bool :=
  let dockerRepo :=
    match providerRepoAttr with
    | some p => p
    | none => envRepo
  if resourceRepo ≠ "" then (resourceRepo, true) else (dockerRepo, false)

/-- One whole build-resource operation: resolve the effective repo as
update does, then run doBuild on it. -/
def koBuildOperation (resourceRepo : Option String) (providerRepo envRepo importpath : String)
    (mkBuilder : Except String Unit)
    (buildStep : String → Except String String)
    (publishStep : String → Except String String) : BuildTrace :=
  doBuildFw (updateRepo resourceRepo providerRepo envRepo).1 importpath
    mkBuilder buildStep publishStep

/-! ## Namer (namer in part_003, MakeNamer wiring in doBuild) -/

/-- Modelled from the spec: options.MakeNamer of the external ko build
system — the bare policy returns the configured repository unchanged and
ignores the import path, while the qualified policy appends a sanitized
form of the import path to the repository.  The sanitizer itself stays an
oracle parameter; the bare branch never consults it. -/
def makeNamer (bare : Bool) (sanitize : String → String) (repo importpath : String) : String :=
  if bare then repo else repo ++ "/" ++ sanitize importpath

/-! ## Base-image resolver and its process-wide cache
(the WithBaseImages closure of makeBuilder) -/

/-- Materialized base-image handle stored in the cache: a single image or a
multi-platform index, abstracted by an opaque handle. -/
inductive BaseResult
  | image (handle : Nat)
  | index (handle : Nat)
deriving DecidableEq

/-- Remote descriptor classified by media type, as the closure inspects it:
an image, an index, or any other media type. -/
inductive RemoteDesc
  | image (handle : Nat)
  | index (handle : Nat)
  | other (mediaType : String)
deriving DecidableEq

/-- Load from the baseImages cache (sync.Map keyed by the exact reference
string). -/
def cacheLoad (c : List (String × BaseResult)) (k : String) : Option BaseResult :=
  match c with
  | [] => none
  | kv :: rest => if kv.1 = k then some kv.2 else cacheLoad rest k

/-- Observable outcome of one base-image lookup: the result (the parsed
reference string with the materialized handle, or an error), the cache
afterwards, whether a remote fetch happened, and whether a handle was
stored. -/
structure BaseLookup where
  result : Except String (String × BaseResult)
  cache : List (String × BaseResult)
  fetched : Bool
  stored : Bool

/-- Translated from the WithBaseImages closure of makeBuilder: parse the
reference (failing on malformed input), return a cache hit without any
network call, otherwise fetch the remote descriptor and, for an image or
index media type, store the materialized handle; any other media type is an
error and stores nothing.  Parsing and fetching are the external
go-containerregistry collaborators, passed as oracles. -/
def getBaseImage (parseRef : String → Option String)
    (fetch : String → Except String RemoteDesc)
    (cache : List (String × BaseResult)) (baseImage : String) : BaseLookup :=
  match parseRef baseImage with
  | none => { result := .error "InvalidReference", cache := cache, fetched := false, stored := false }
  | some ref =>
    match cacheLoad cache baseImage with
    | some cached => { result := .ok (ref, cached), cache := cache, fetched := false, stored := false }
    | none =>
      match fetch baseImage with
      | .error e => { result := .error e, cache := cache, fetched := true, stored := false }
      | .ok (.image h) =>
        { result := .ok (ref, .image h), cache := (baseImage, .image h) :: cache,
          fetched := true, stored := true }
      | .ok (.index h) =>
        { result := .ok (ref, .index h), cache := (baseImage, .index h) :: cache,
          fetched := true, stored := true }
      | .ok (.other mt) =>
        { result := .error ("unexpected base image media type: " ++ mt), cache := cache,
          fetched := true, stored := false }

/-- One observable event of a base-image lookup sequence. -/
structure LookupEvent where
  request : String
  fetched : Bool
  stored : Bool
deriving DecidableEq

/-- Run a sequence of base-image lookups against one process-wide cache,
recording for each the request string, whether it fetched, and whether it
stored. -/
def runBaseLookups (parseRef : String → Option String)
    (fetch : String → Except String RemoteDesc) :
    List String → List (String × BaseResult) → List LookupEvent × List (String × BaseResult)
  | [], cache => ([], cache)
  | s :: rest, cache =>
    let l := getBaseImage parseRef fetch cache s
    let r := runBaseLookups parseRef fetch rest l.cache
    ({ request := s, fetched := l.fetched, stored := l.stored } :: r.1, r.2)

/-- How many lookups of the run stored a handle for the given reference
string. -/
def storedCount (events : List LookupEvent) (s : String) : Nat :=
  (events.filter (fun e => decide (e.request = s) && e.stored)).length

/-! ## Reproducible-build timestamp (SOURCE_DATE_EPOCH in makeBuilder,
part_003) -/

/-- Accumulate decimal digits; any non-digit character fails. -/
def parseDigitsAux : List Char → Nat → Option Nat
  | [], acc => some acc
  | c :: cs, acc =>
    if '0' ≤ c ∧ c ≤ '9' then parseDigitsAux cs (acc * 10 + (c.toNat - 48)) else none

/-- Parse a non-empty all-digit string to a Nat. -/
def parseDigits : List Char → Option Nat
  | [] => none
  | c :: cs => parseDigitsAux (c :: cs) 0

/-- Largest int64 value. -/
def int64Max : Nat := 2 ^ 63 - 1

/-- Translated from strconv.ParseInt with base 10 and bit size 64 (Go
standard library collaborator): an optional sign followed by decimal
digits, failing on an empty string, any non-digit, or a value outside the
64-bit signed range. -/
def goParseInt64 (s : String) : Option Int :=
  match s.data with
  | [] => none
  | '+' :: ds => (parseDigits ds).bind (fun n => if n ≤ int64Max then some (n : Int) else none)
  | '-' :: ds => (parseDigits ds).bind (fun n => if n ≤ int64Max + 1 then some (-(n : Int)) else none)
  | ds => (parseDigits ds).bind (fun n => if n ≤ int64Max then some (n : Int) else none)

/-- Pure option assembly produced by makeBuilder: trimpath is always set,
the platforms and SBOM mode are recorded, and the creation time is the
parsed SOURCE_DATE_EPOCH when present. -/
structure GoBuilderConfig where
  trimpath : Bool
  platforms : List String
  sbomMode : String
  creationTime : Option Int
deriving DecidableEq

/-- Translated from makeBuilder (SDK-v2 generation, part_003): the sbom
switch accepts spdx or none and rejects anything else; then, when the
SOURCE_DATE_EPOCH environment variable is non-empty, it must parse as a
64-bit integer — a parse failure is a fatal error — and on success the
creation time is that many seconds since the Unix epoch.  Getenv yields the
empty string for an unset variable. -/
def makeBuilderConfig (platforms : List String) (sbom : String)
    (sourceDateEpoch : String) : Except String GoBuilderConfig :=
  if sbom ≠ "spdx" ∧ sbom ≠ "none" then .error ("unknown sbom type: " ++ sbom)
  else if sourceDateEpoch = "" then
    .ok { trimpath := true, platforms := platforms, sbomMode := sbom, creationTime := none }
  else
    match goParseInt64 sourceDateEpoch with
    | none =>
      .error ("the environment variable " ++ sourceDateEpoch ++
        " should be the number of seconds since January 1st 1970, 00:00 UTC, got: parse error")
    | some v =>
      .ok { trimpath := true, platforms := platforms, sbomMode := sbom, creationTime := some v }

/-! ## Read-time softening (resourceKoBuildRead, part_003/part_005) -/

/-- Diagnostic severity of the plugin SDK. -/
inductive DiagSeverity
  | error
  | warning
deriving DecidableEq

/-- One diagnostic of the plugin SDK. -/
structure Diagnostic where
  severity : DiagSeverity
  summary : String
  detail : String
deriving DecidableEq

/-- Translated from the zeroRef constant: the sentinel reference with an
all-zero digest. -/
def zeroRef : String :=
  "example.com/zero@sha256:0000000000000000000000000000000000000000000000000000000000000000"

/-- Observable outcome of the read handler: returned diagnostics, the
image_ref attribute, and the resource id afterwards. -/
structure ReadResult where
  diags : List Diagnostic
  imageRef : String
  id : String
deriving DecidableEq

/-- Translated from resourceKoBuildRead: a build failure does not fail the
read — the reference becomes the zero sentinel and a warning diagnostic is
appended; then image_ref is set, and the id is cleared (triggering create
on the next apply) whenever the reference differs from the stored id or is
the sentinel. -/
def resourceKoBuildRead (buildRes : Except String String) (prevId : String) : ReadResult :=
  match buildRes with
  | .error e =>
    { diags := [{ severity := .warning,
                  summary := "Image build failed to read -- create may fail.",
                  detail := "failed to read image: " ++ e }],
      imageRef := zeroRef,
      id := if zeroRef ≠ prevId ∨ zeroRef = zeroRef then "" else zeroRef }
  | .ok ref =>
    { diags := [],
      imageRef := ref,
      id := if ref ≠ prevId ∨ ref = zeroRef then "" else ref }

/-! ## Registry logging transport (loggingTransport.RoundTrip,
logErrorDetails and isExpectedProtocolResponse, part_003) -/

/-- The request fields the transport classification reads. -/
structure HttpRequest where
  method : String
  urlPath : String
deriving DecidableEq

/-- The response field the transport classification reads. -/
structure HttpResponse where
  statusCode : Nat
deriving DecidableEq

/-- Translated from isExpectedProtocolResponse: a 401 on a path ending in
/v2/ is the auth challenge, and a 404 on a HEAD request is an existence
check; both are normal protocol operation, not actual errors. -/
def isExpectedProtocolResponse (req : HttpRequest) (resp : HttpResponse) : Bool :=
  (decide (resp.statusCode = 401) && strHasSuffix req.urlPath "/v2/") ||
    (decide (resp.statusCode = 404) && decide (req.method = "HEAD"))

/-- How the transport logs the details of one response. -/
inductive DetailLog
  | notLogged
  | loggedDebug
  | loggedError
deriving DecidableEq

/-- Translated from RoundTrip and logErrorDetails: responses of status 400
and above get their details logged — at debug level for the two expected
protocol patterns, at error level otherwise; responses below 400 get no
detailed error logging. -/
def roundTripDetailLog (req : HttpRequest) (resp : HttpResponse) : DetailLog :=
  if 400 ≤ resp.statusCode then
    if isExpectedProtocolResponse req resp then .loggedDebug else .loggedError
  else .notLogged

/-! ## Delete handlers (resourceKoBuildDelete, BuildResource.Delete,
ResolveResource.Delete) -/

/-- Observable effect of a delete handler: registry interactions performed
and diagnostics returned. -/
structure DeleteEffect where
  registryOps : Nat
  diags : List Diagnostic
deriving DecidableEq

/-- Translated from resourceKoBuildDelete (SDK-v2, also wired as the
resolve resource delete hook) and from BuildResource.Delete and
ResolveResource.Delete (framework): the body performs no action on the
registry and returns no diagnostics, whatever the stored state; the
registry is passed through unchanged. -/
def resourceDelete (registry : List String) (_state : String) :
    List String × DeleteEffect :=
  (registry, { registryOps := 0, diags := [] })

/-- Oracle used by concrete base-image lookup witnesses: parsing fails on
one designated malformed string and succeeds identically otherwise. -/
def parseRefW (s : String) : Option String := if s = "bad" then none else some s

/-- Oracle used by concrete base-image lookup witnesses: every fetch
returns the same image descriptor. -/
def fetchW (_ : String) : Except String RemoteDesc := .ok (.image 7)

/-! ## Helper lemmas -/

/-- Unfolding step of the publish retry loop at a successful attempt. -/
theorem doPublishLoop_ok (pub : Nat → Except PublishError String)
    (fuel attempt slept : Nat) (ref : String) (h : pub attempt = .ok ref) :
    doPublishLoop pub fuel attempt slept =
      { result := .ok ref, publishCalls := attempt, sleepSeconds := slept } := by
  cases fuel <;> simp [doPublishLoop, h]

/-- Unfolding step of the publish retry loop at a terminally failing
attempt (non-transient error or attempt bound reached). -/
theorem doPublishLoop_exit (pub : Nat → Except PublishError String)
    (fuel attempt slept : Nat) (err : PublishError) (h : pub attempt = .error err)
    (hc : isManifestInvalidError err = false ∨ maxAttempts ≤ attempt) :
    doPublishLoop pub fuel attempt slept =
      { result := .error err, publishCalls := attempt, sleepSeconds := slept } := by
  cases fuel <;> simp [doPublishLoop, h, hc]

/-- Unfolding step of the publish retry loop at a retried attempt. -/
theorem doPublishLoop_retry (pub : Nat → Except PublishError String)
    (fuel attempt slept : Nat) (err : PublishError) (h : pub attempt = .error err)
    (h1 : isManifestInvalidError err = true) (h2 : attempt < maxAttempts) :
    doPublishLoop pub (fuel + 1) attempt slept =
      doPublishLoop pub fuel (attempt + 1) (slept + retryDelaySeconds) := by
  have hcond : ¬(isManifestInvalidError err = false ∨ maxAttempts ≤ attempt) := by
    rintro (hf | hle)
    · rw [h1] at hf
      exact Bool.true_eq_false.mp hf
    · exact absurd hle (Nat.not_le.mpr h2)
  rw [doPublishLoop, h]
  simp [hcond]

/-- Entries already in the base-image cache survive any lookup. -/
theorem cacheLoad_getBaseImage (parse : String → Option String)
    (fetch : String → Except String RemoteDesc)
    (cache : List (String × BaseResult)) (s k : String) (v : BaseResult)
    (h : cacheLoad cache k = some v) :
    cacheLoad (getBaseImage parse fetch cache s).cache k = some v := by
  by_cases hk : s = k
  · subst hk
    unfold getBaseImage
    cases parse s with
    | none => exact h
    | some ref => rw [h]; exact h
  · unfold getBaseImage
    cases parse s with
    | none => exact h
    | some ref =>
      cases hcs : cacheLoad cache s with
      | some cached => exact h
      | none =>
        cases fetch s with
        | error e => exact h
        | ok d =>
          cases d with
          | image hd => simpa [cacheLoad, hk] using h
          | index hd => simpa [cacheLoad, hk] using h
          | other mt => exact h

/-- A lookup of a string already in the cache is a pure cache hit: no
fetch, no store, cache unchanged, cached value returned. -/
theorem getBaseImage_hit (parse : String → Option String)
    (fetch : String → Except String RemoteDesc)
    (cache : List (String × BaseResult)) (s ref : String) (r : BaseResult)
    (hp : parse s = some ref) (hc : cacheLoad cache s = some r) :
    getBaseImage parse fetch cache s =
      { result := .ok (ref, r), cache := cache, fetched := false, stored := false } := by
  simp [getBaseImage, hp, hc]

/-- A lookup of a string already in the cache never fetches and never
stores, whatever the parser does. -/
theorem getBaseImage_no_refetch (parse : String → Option String)
    (fetch : String → Except String RemoteDesc)
    (cache : List (String × BaseResult)) (s : String) (r : BaseResult)
    (hc : cacheLoad cache s = some r) :
    (getBaseImage parse fetch cache s).fetched = false ∧
      (getBaseImage parse fetch cache s).stored = false ∧
      (getBaseImage parse fetch cache s).cache = cache := by
  unfold getBaseImage
  cases parse s with
  | none => exact ⟨rfl, rfl, rfl⟩
  | some ref => rw [hc]; exact ⟨rfl, rfl, rfl⟩

/-- After a lookup that stored, the cache holds the request string. -/
theorem getBaseImage_stored_mem (parse : String → Option String)
    (fetch : String → Except String RemoteDesc)
    (cache : List (String × BaseResult)) (s : String) :
    (getBaseImage parse fetch cache s).stored = true →
      ∃ v, cacheLoad (getBaseImage parse fetch cache s).cache s = some v := by
  unfold getBaseImage
  cases hp : parse s with
  | none => simp
  | some ref =>
    cases hc : cacheLoad cache s with
    | some cached => simp
    | none =>
      cases hf : fetch s with
      | error e => simp
      | ok d =>
        cases d with
        | image hd => intro _; exact ⟨.image hd, by simp [cacheLoad]⟩
        | index hd => intro _; exact ⟨.index hd, by simp [cacheLoad]⟩
        | other mt => simp

/-- Unfolding of a lookup run on a first request. -/
theorem runBaseLookups_cons (parse : String → Option String)
    (fetch : String → Except String RemoteDesc)
    (s : String) (rest : List String) (cache : List (String × BaseResult)) :
    runBaseLookups parse fetch (s :: rest) cache =
      (({ request := s, fetched := (getBaseImage parse fetch cache s).fetched,
          stored := (getBaseImage parse fetch cache s).stored } : LookupEvent) ::
          (runBaseLookups parse fetch rest (getBaseImage parse fetch cache s).cache).1,
        (runBaseLookups parse fetch rest (getBaseImage parse fetch cache s).cache).2) := rfl

/-- Count of storing lookups on a cons of events. -/
theorem storedCount_cons (e : LookupEvent) (evs : List LookupEvent) (s : String) :
    storedCount (e :: evs) s =
      (if e.request = s ∧ e.stored = true then 1 else 0) + storedCount evs s := by
  by_cases h1 : e.request = s <;> by_cases h2 : e.stored = true <;>
    simp [storedCount, List.filter_cons, h1, h2, Nat.add_comm]

/-- Entries in the cache survive a whole run of lookups. -/
theorem runBaseLookups_preserves (parse : String → Option String)
    (fetch : String → Except String RemoteDesc)
    (reqs : List String) (cache : List (String × BaseResult)) (k : String) (v : BaseResult)
    (h : cacheLoad cache k = some v) :
    cacheLoad (runBaseLookups parse fetch reqs cache).2 k = some v := by
  induction reqs generalizing cache with
  | nil => exact h
  | cons s rest ih =>
    rw [runBaseLookups_cons]
    exact ih _ (cacheLoad_getBaseImage parse fetch cache s k v h)

/-- Once a string is in the cache, a run performs no storing lookup for
it. -/
theorem runBaseLookups_storedCount_zero (parse : String → Option String)
    (fetch : String → Except String RemoteDesc)
    (reqs : List String) (cache : List (String × BaseResult)) (s : String) (r : BaseResult)
    (h : cacheLoad cache s = some r) :
    storedCount (runBaseLookups parse fetch reqs cache).1 s = 0 := by
  induction reqs generalizing cache with
  | nil => rfl
  | cons s0 rest ih =>
    rw [runBaseLookups_cons, storedCount_cons]
    by_cases hs : s0 = s
    · subst hs
      obtain ⟨-, h2, h3⟩ := getBaseImage_no_refetch parse fetch cache s0 r h
      rw [h2, h3]
      simpa using ih _ h
    · have hcache := cacheLoad_getBaseImage parse fetch cache s0 s r h
      simp only [hs, false_and, if_false, Nat.zero_add]
      exact ih _ hcache

/-- A run of base-image lookups stores a handle for any given reference
string at most once. -/
theorem runBaseLookups_storedCount_le_one (parse : String → Option String)
    (fetch : String → Except String RemoteDesc)
    (reqs : List String) (cache : List (String × BaseResult)) (s : String) :
    storedCount (runBaseLookups parse fetch reqs cache).1 s ≤ 1 := by
  induction reqs generalizing cache with
  | nil => exact Nat.zero_le 1
  | cons s0 rest ih =>
    rw [runBaseLookups_cons, storedCount_cons]
    by_cases hev : s0 = s ∧ (getBaseImage parse fetch cache s0).stored = true
    · obtain ⟨hs, hst⟩ := hev
      subst hs
      obtain ⟨v, hv⟩ := getBaseImage_stored_mem parse fetch cache s0 hst
      rw [runBaseLookups_storedCount_zero parse fetch rest _ s0 v hv]
      simp [hst]
    · simp only [hev, if_false, Nat.zero_add]
      exact ih _

/-- Bool characterization of the expected-protocol classifier. -/
theorem isExpected_iff (req : HttpRequest) (resp : HttpResponse) :
    isExpectedProtocolResponse req resp = true ↔
      ((resp.statusCode = 401 ∧ strHasSuffix req.urlPath "/v2/" = true) ∨
        (resp.statusCode = 404 ∧ req.method = "HEAD")) := by
  simp [isExpectedProtocolResponse, Bool.or_eq_true, Bool.and_eq_true, decide_eq_true_eq]

/-! ## Claims -/

/-- Claim C1 is right about the intended identity and the code is wrong:
evaluating Resolver.Resolve at two streams with different semantic
content, the normalized manifests differ, yet the stored identities
coincide — both are the SHA-256 of the empty string, because the yaml
decoder drains resolveBuf before sha256.Sum256 reads it — and the stored
identity differs from the hash of the re-serialized documents joined by
the fixed separator, which does distinguish the two streams (and is what
the claim describes and the superseded SDK-v2 Resolved.ID computed). -/
theorem C1_code_bug_eval :
    resolveManifests "a: 1\n" ≠ resolveManifests "a: 2\n" ∧
    (resolverResolve "a: 1\n").ID = (resolverResolve "a: 2\n").ID ∧
    (resolverResolve "a: 1\n").ID = sha256hex (strBytes "") ∧
    (resolverResolve "a: 1\n").ID
      ≠ legacyResolvedID (resolverResolve "a: 1\n").Manifests ∧
    legacyResolvedID (resolveManifests "a: 1\n")
      ≠ legacyResolvedID (resolveManifests "a: 2\n") := by
  refine ⟨by decide, rfl, rfl, by decide, by decide⟩

/-- Claim C2: the publish step retries exactly the MANIFEST_INVALID
transport error class — an error is in the class when a structured
transport error carries that nested code; a persistent transient error is
retried up to 3 attempts with a 1-second delay between attempts and then
surfaced; any other error is surfaced after exactly 1 attempt with no
sleep; and a transient error that clears by the third attempt succeeds
after exactly 3 publish calls. -/
theorem C2_publish_retry :
    (∀ err, isManifestInvalidError err = true ↔
        ∃ terr, err = PublishError.transport terr ∧
          ∃ d ∈ terr.Errors, d.Code = manifestInvalidErrorCode) ∧
    (∀ pub err, isManifestInvalidError err = true →
        (∀ k, pub k = Except.error err) →
        doPublishRetry pub =
          { result := .error err, publishCalls := 3, sleepSeconds := 2 }) ∧
    (∀ pub err, isManifestInvalidError err = false →
        pub 1 = Except.error err →
        doPublishRetry pub =
          { result := .error err, publishCalls := 1, sleepSeconds := 0 }) ∧
    (∀ pub err ref, isManifestInvalidError err = true →
        pub 1 = Except.error err → pub 2 = Except.error err → pub 3 = Except.ok ref →
        doPublishRetry pub =
          { result := .ok ref, publishCalls := 3, sleepSeconds := 2 }) ∧
    maxAttempts = 3 ∧ retryDelaySeconds = 1 := by
  refine ⟨?_, ?_, ?_, ?_, rfl, rfl⟩
  · intro err
    cases err with
    | transport terr =>
      simp [isManifestInvalidError, List.any_eq_true, beq_iff_eq]
    | plain msg =>
      simp [isManifestInvalidError]
  · intro pub err h1 h2
    have s1 : (1 : Nat) < maxAttempts := by decide
    have s2 : (2 : Nat) < maxAttempts := by decide
    have e3 : maxAttempts ≤ 3 := by decide
    rw [doPublishRetry,
      show maxAttempts = 2 + 1 from rfl,
      doPublishLoop_retry pub 2 1 0 err (h2 1) h1 s1,
      show (2 : Nat) = 1 + 1 from rfl,
      doPublishLoop_retry pub 1 2 (0 + retryDelaySeconds) err (h2 2) h1 s2,
      doPublishLoop_exit pub 1 3 (0 + retryDelaySeconds + retryDelaySeconds) err (h2 3)
        (Or.inr e3)]
    simp [retryDelaySeconds]
  · intro pub err h1 h2
    rw [doPublishRetry, doPublishLoop_exit pub maxAttempts 1 0 err h2 (Or.inl h1)]
  · intro pub err ref h1 e1 e2 e3
    have s1 : (1 : Nat) < maxAttempts := by decide
    have s2 : (2 : Nat) < maxAttempts := by decide
    rw [doPublishRetry,
      show maxAttempts = 2 + 1 from rfl,
      doPublishLoop_retry pub 2 1 0 err e1 h1 s1,
      show (2 : Nat) = 1 + 1 from rfl,
      doPublishLoop_retry pub 1 2 (0 + retryDelaySeconds) err e2 h1 s2,
      doPublishLoop_ok pub 1 3 (0 + retryDelaySeconds + retryDelaySeconds) ref e3]
    simp [retryDelaySeconds]

/-- Witness for claim C2: a publisher that always fails with the
MANIFEST_INVALID transport error is retried to exhaustion — three publish
calls, two seconds slept — before the error is surfaced. -/
theorem C2_witness :
    doPublishRetry
        (fun _ => Except.error
          (PublishError.transport { Errors := [{ Code := "MANIFEST_INVALID" }] })) =
      { result := Except.error
          (PublishError.transport { Errors := [{ Code := "MANIFEST_INVALID" }] }),
        publishCalls := 3, sleepSeconds := 2 } :=
  C2_publish_retry.2.1 _ _ (by decide) (fun _ => rfl)

/-- Claim C3 is false on the code: with the resource-level repo unset and
the provider-level repo and the KO_DOCKER_REPO environment value both set
to different non-empty values, BuildResourceModel.update picks the
provider-level value, not the environment value. -/
theorem C3_counterexample :
    (updateRepo none "registry.example.com/prov" "registry.example.com/env").1
        = "registry.example.com/prov" ∧
    (updateRepo none "registry.example.com/prov" "registry.example.com/env").1
        ≠ "registry.example.com/env" := by
  refine ⟨rfl, by decide⟩

/-- Claim C3 (amended): the effective target repository is resolved with
the precedence resource-level override, then provider-level repo, then the
KO_DOCKER_REPO environment variable as last resort — the environment value
is used only when the provider-level repo is empty.  The superseded SDK-v2
generation agrees: there the provider attribute falls back to the
environment variable only when unconfigured, and an explicitly configured
provider repo wins over it. -/
theorem C3_amended_precedence (resourceRepo : Option String) (providerRepo envRepo : String) :
    (∀ r, resourceRepo = some r →
        updateRepo resourceRepo providerRepo envRepo = (r, true)) ∧
    (resourceRepo = none → providerRepo ≠ "" →
        updateRepo resourceRepo providerRepo envRepo = (providerRepo, false)) ∧
    (resourceRepo = none → providerRepo = "" →
        updateRepo resourceRepo providerRepo envRepo = (envRepo, false)) ∧
    (∀ p, p ≠ "" → fromDataRepo "" (some p) envRepo = (p, false)) := by
  refine ⟨?_, ?_, ?_, ?_⟩
  · intro r hr
    subst hr
    rfl
  · intro hn hp
    subst hn
    simp [updateRepo, hp]
  · intro hn hp
    subst hn
    simp [updateRepo, hp]
  · intro p _
    simp [fromDataRepo]

/-- Witness for the amended claim C3 at concrete distinct values: the
provider repo beats the environment variable. -/
theorem C3_witness :
    updateRepo none "registry.example.com/prov" "registry.example.com/env"
      = ("registry.example.com/prov", false) :=
  (C3_amended_precedence none "registry.example.com/prov" "registry.example.com/env").2.1
    rfl (by decide)

/-- Claim C4 is false as stated on the framework resource: a resource-level
repo explicitly set to the empty string (a non-null terraform value) makes
the effective repo empty, so the configuration error is raised even though
the provider-level source yields a non-empty repository.  The error and
the absence of build/publish work in that situation are exhibited. -/
theorem C4_counterexample :
    koBuildOperation (some "") "registry.example.com/prov" "" "example.com/app"
        (Except.ok ()) (fun _ => Except.ok "built") (fun _ => Except.ok "ref")
      = { outcome := .clientError repoUnsetError, buildCalls := 0, publishCalls := 0 } ∧
    "registry.example.com/prov" ≠ "" := by
  refine ⟨rfl, by decide⟩

/-- Claim C4 (amended): the build operation fails before any build or
publish work exactly when the effective repository resolved by update is
empty — which happens when all three sources are unset or empty, and also
when the resource-level repo is explicitly set to the empty string — and
the configuration error message names all three sources; when the
effective repository is non-empty, no such configuration error is
raised. -/
theorem C4_amended_precheck (resourceRepo : Option String)
    (providerRepo envRepo importpath : String) (mkBuilder : Except String Unit)
    (buildStep publishStep : String → Except String String) :
    (strContains repoUnsetError "KO_DOCKER_REPO" = true ∧
      strContains repoUnsetError "provider `repo`" = true ∧
      strContains repoUnsetError "ko_build resource `repo`" = true) ∧
    ((updateRepo resourceRepo providerRepo envRepo).1 = "" →
      koBuildOperation resourceRepo providerRepo envRepo importpath
          mkBuilder buildStep publishStep
        = { outcome := .clientError repoUnsetError, buildCalls := 0, publishCalls := 0 }) ∧
    ((updateRepo resourceRepo providerRepo envRepo).1 ≠ "" →
      ∀ msg, (koBuildOperation resourceRepo providerRepo envRepo importpath
          mkBuilder buildStep publishStep).outcome ≠ .clientError msg) := by
    refine ⟨⟨by decide, by decide, by decide⟩, ?_, ?_⟩
    · intro h0
      simp [koBuildOperation, doBuildFw, h0]
    · intro h0 msg
      unfold koBuildOperation doBuildFw
      rw [if_neg h0]
      cases hm : mkBuilder with
      | error e => simp
      | ok u =>
        cases hb : buildStep importpath with
        | error e => simp [hb]
        | ok res =>
          cases hq : publishStep res with
          | error e => simp [hb, hq]
          | ok ref => simp [hb, hq]

/-- Witness for the amended claim C4: with all three sources empty the
operation fails with the configuration error before any build or publish
work. -/
theorem C4_witness :
    koBuildOperation none "" "" "example.com/app"
        (Except.ok ()) (fun _ => Except.ok "built") (fun _ => Except.ok "ref")
      = { outcome := .clientError repoUnsetError, buildCalls := 0, publishCalls := 0 } :=
  (C4_amended_precheck none "" "" "example.com/app"
      (Except.ok ()) (fun _ => Except.ok "built") (fun _ => Except.ok "ref")).2.1 rfl

/-- Claim C5: whenever the resource-level repo override is set, update
turns on bare naming, and the bare namer returns exactly the configured
repository with no import-path suffix: two distinct import paths under the
same bare repo resolve to the same literal repository name. -/
theorem C5_bare_naming (resourceRepo providerRepo envRepo p1 p2 : String)
    (sanitize : String → String) (_hp : p1 ≠ p2) :
    (updateRepo (some resourceRepo) providerRepo envRepo).2 = true ∧
    makeNamer (updateRepo (some resourceRepo) providerRepo envRepo).2 sanitize
        (updateRepo (some resourceRepo) providerRepo envRepo).1 p1 = resourceRepo ∧
    makeNamer (updateRepo (some resourceRepo) providerRepo envRepo).2 sanitize
        (updateRepo (some resourceRepo) providerRepo envRepo).1 p1
      = makeNamer (updateRepo (some resourceRepo) providerRepo envRepo).2 sanitize
          (updateRepo (some resourceRepo) providerRepo envRepo).1 p2 := by
  refine ⟨rfl, rfl, rfl⟩

/-- Witness for claim C5 at two concrete distinct import paths under one
bare repo. -/
theorem C5_witness :
    (updateRepo (some "registry.example.com/app") "" "").2 = true ∧
    makeNamer (updateRepo (some "registry.example.com/app") "" "").2 id
        (updateRepo (some "registry.example.com/app") "" "").1 "example.com/cmd/a"
      = "registry.example.com/app" ∧
    makeNamer (updateRepo (some "registry.example.com/app") "" "").2 id
        (updateRepo (some "registry.example.com/app") "" "").1 "example.com/cmd/a"
      = makeNamer (updateRepo (some "registry.example.com/app") "" "").2 id
          (updateRepo (some "registry.example.com/app") "" "").1 "example.com/cmd/b" :=
  C5_bare_naming "registry.example.com/app" "" "" "example.com/cmd/a" "example.com/cmd/b"
    id (by decide)

/-- Claim C6 is false as stated: a lookup whose remote fetch fails stores
nothing, so a second lookup of the very same reference string fetches
again — two remote fetches for one distinct string within one process
run. -/
theorem C6_counterexample :
    ((runBaseLookups (fun s => some s) (fun _ => Except.error "connection reset")
        ["cgr.dev/chainguard/static", "cgr.dev/chainguard/static"] []).1.map
          (fun e => e.fetched)) = [true, true] := rfl

/-- Claim C6 (amended): the base-image resolver stores a materialized
handle for a given reference string at most once per run, a reference
already cached is answered from the cache with no fetch and no store and
an unchanged cache, cache entries are never removed by a run, and a
malformed reference fails at parse time with no fetch; only failed
lookups (fetch errors or unsupported media types) are not cached and may
fetch again. -/
theorem C6_amended_cache (parse : String → Option String)
    (fetch : String → Except String RemoteDesc)
    (reqs : List String) (cache : List (String × BaseResult)) (s ref : String)
    (r : BaseResult) :
    storedCount (runBaseLookups parse fetch reqs cache).1 s ≤ 1 ∧
    (cacheLoad cache s = some r → parse s = some ref →
      getBaseImage parse fetch cache s =
        { result := .ok (ref, r), cache := cache, fetched := false, stored := false }) ∧
    (cacheLoad cache s = some r →
      cacheLoad (runBaseLookups parse fetch reqs cache).2 s = some r) ∧
    (∀ s2, parse s2 = none →
      getBaseImage parse fetch cache s2 =
        { result := .error "InvalidReference", cache := cache,
          fetched := false, stored := false }) := by
  refine ⟨runBaseLookups_storedCount_le_one parse fetch reqs cache s, ?_, ?_, ?_⟩
  · intro hc hp
    exact getBaseImage_hit parse fetch cache s ref r hp hc
  · intro hc
    exact runBaseLookups_preserves parse fetch reqs cache s r hc
  · intro s2 hp
    simp [getBaseImage, hp]

/-- Witness for the amended claim C6: with one entry already cached, a run
that looks the same string up twice stores nothing new, answers from the
cache without fetching, keeps the entry, and a malformed reference fails
at parse time. -/
theorem C6_witness :
    storedCount (runBaseLookups parseRefW fetchW ["img", "img"]
        [("img", BaseResult.image 7)]).1 "img" ≤ 1 ∧
    getBaseImage parseRefW fetchW [("img", BaseResult.image 7)] "img" =
      { result := .ok ("img", BaseResult.image 7), cache := [("img", BaseResult.image 7)],
        fetched := false, stored := false } ∧
    cacheLoad (runBaseLookups parseRefW fetchW ["img", "img"]
        [("img", BaseResult.image 7)]).2 "img" = some (BaseResult.image 7) ∧
    getBaseImage parseRefW fetchW [("img", BaseResult.image 7)] "bad" =
      { result := .error "InvalidReference", cache := [("img", BaseResult.image 7)],
        fetched := false, stored := false } := by
  have T := C6_amended_cache parseRefW fetchW ["img", "img"]
    [("img", BaseResult.image 7)] "img" "img" (BaseResult.image 7)
  exact ⟨T.1, T.2.1 (by simp [cacheLoad]) (by simp [parseRefW]),
    T.2.2.1 (by simp [cacheLoad]), T.2.2.2 "bad" (by simp [parseRefW])⟩

/-- Claim C7: with a valid SBOM mode, an unset (empty) SOURCE_DATE_EPOCH
yields a builder with no creation timestamp; a non-empty value that parses
as a 64-bit integer sets the creation time to that many seconds since the
Unix epoch; and a non-empty value that does not parse is a fatal
configuration error surfaced by makeBuilder, never silently ignored. -/
theorem C7_source_date_epoch (platforms : List String) (epoch : String) :
    (makeBuilderConfig platforms "spdx" "" =
        .ok { trimpath := true, platforms := platforms, sbomMode := "spdx",
              creationTime := none }) ∧
    (∀ v, epoch ≠ "" → goParseInt64 epoch = some v →
        makeBuilderConfig platforms "spdx" epoch =
          .ok { trimpath := true, platforms := platforms, sbomMode := "spdx",
                creationTime := some v }) ∧
    (epoch ≠ "" → goParseInt64 epoch = none →
        ∃ msg, makeBuilderConfig platforms "spdx" epoch = .error msg) := by
  refine ⟨by simp [makeBuilderConfig], ?_, ?_⟩
  · intro v he hv
    simp [makeBuilderConfig, he, hv]
  · intro he hv
    exact ⟨"the environment variable " ++ epoch ++
      " should be the number of seconds since January 1st 1970, 00:00 UTC, got: parse error",
      by simp [makeBuilderConfig, he, hv]⟩

/-- Witness for claim C7: a numeric epoch is honored as the creation time
and a non-numeric epoch is a surfaced error. -/
theorem C7_witness :
    (makeBuilderConfig ["linux/amd64"] "spdx" "1700000000" =
      .ok { trimpath := true, platforms := ["linux/amd64"], sbomMode := "spdx",
            creationTime := some 1700000000 }) ∧
    (∃ msg, makeBuilderConfig ["linux/amd64"] "spdx" "tomorrow" = .error msg) :=
  ⟨(C7_source_date_epoch ["linux/amd64"] "1700000000").2.1 1700000000 (by decide) (by decide),
    (C7_source_date_epoch ["linux/amd64"] "tomorrow").2.2 (by decide) (by decide)⟩

/-- Claim C8: a build failure during read does not fail the read — the
handler returns exactly one diagnostic, of warning (not error) severity,
sets image_ref to the fixed sentinel whose digest is all zeros, and clears
the resource id so the next apply recreates the resource. -/
theorem C8_read_softening (e prevId : String) :
    (resourceKoBuildRead (Except.error e) prevId).diags.length = 1 ∧
    (∀ d ∈ (resourceKoBuildRead (Except.error e) prevId).diags,
        d.severity = DiagSeverity.warning) ∧
    (resourceKoBuildRead (Except.error e) prevId).imageRef = zeroRef ∧
    strHasSuffix zeroRef
        "@sha256:0000000000000000000000000000000000000000000000000000000000000000" = true ∧
    (resourceKoBuildRead (Except.error e) prevId).id = "" := by
  refine ⟨rfl, ?_, rfl, by decide, ?_⟩
  · intro d hd
    simp [resourceKoBuildRead] at hd
    rw [hd]
  · simp [resourceKoBuildRead]

/-- Witness for claim C8 at a concrete build error and stored id. -/
theorem C8_witness :
    (resourceKoBuildRead (Except.error "go build failed") "old-id").diags.length = 1 ∧
    (∀ d ∈ (resourceKoBuildRead (Except.error "go build failed") "old-id").diags,
        d.severity = DiagSeverity.warning) ∧
    (resourceKoBuildRead (Except.error "go build failed") "old-id").imageRef = zeroRef ∧
    strHasSuffix zeroRef
        "@sha256:0000000000000000000000000000000000000000000000000000000000000000" = true ∧
    (resourceKoBuildRead (Except.error "go build failed") "old-id").id = "" :=
  C8_read_softening "go build failed" "old-id"

/-- Claim C9: the transport logs response details exactly for status codes
400 and above; among those, precisely a 401 on a URL path ending in /v2/
and a 404 on a HEAD request are classified as expected protocol operation
(debug), and every other such response is logged as an error; responses
below 400 never get detailed error logging. -/
theorem C9_logging_classification (req : HttpRequest) (resp : HttpResponse) :
    (roundTripDetailLog req resp ≠ .notLogged ↔ 400 ≤ resp.statusCode) ∧
    (roundTripDetailLog req resp = .loggedDebug ↔
      (400 ≤ resp.statusCode ∧
        ((resp.statusCode = 401 ∧ strHasSuffix req.urlPath "/v2/" = true) ∨
          (resp.statusCode = 404 ∧ req.method = "HEAD")))) ∧
    (roundTripDetailLog req resp = .loggedError ↔
      (400 ≤ resp.statusCode ∧
        ¬((resp.statusCode = 401 ∧ strHasSuffix req.urlPath "/v2/" = true) ∨
          (resp.statusCode = 404 ∧ req.method = "HEAD")))) := by
  by_cases h4 : 400 ≤ resp.statusCode
  · by_cases hexp : isExpectedProtocolResponse req resp = true
    · have hp := (isExpected_iff req resp).mp hexp
      refine ⟨?_, ?_, ?_⟩
      · simp [roundTripDetailLog, h4, hexp]
      · simp [roundTripDetailLog, h4, hexp, hp]
      · simp [roundTripDetailLog, h4, hexp, hp]
    · have hp : ¬((resp.statusCode = 401 ∧ strHasSuffix req.urlPath "/v2/" = true) ∨
          (resp.statusCode = 404 ∧ req.method = "HEAD")) :=
        fun hc => hexp ((isExpected_iff req resp).mpr hc)
      refine ⟨?_, ?_, ?_⟩
      · simp [roundTripDetailLog, h4, hexp]
      · simp [roundTripDetailLog, h4, hexp, hp]
      · simp [roundTripDetailLog, h4, hexp, hp]
  · refine ⟨?_, ?_, ?_⟩
    · simp [roundTripDetailLog, h4]
    · simp [roundTripDetailLog, h4]
    · simp [roundTripDetailLog, h4]

/-- Claim C10: the delete handlers of the build and resolve resources are
no-ops with respect to the registry and every other state: the registry is
passed through unchanged, no registry interaction happens, and the handler
returns success with no diagnostics whatever the stored state. -/
theorem C10_delete_noop (registry : List String) (state : String) :
    (resourceDelete registry state).1 = registry ∧
    (resourceDelete registry state).2.registryOps = 0 ∧
    (resourceDelete registry state).2.diags = [] :=
  ⟨rfl, rfl, rfl⟩

end KoProvider
